import Mathlib

/-!
Verification of the credential vault and object-catalog layer of the
simple-s3-file-browser application.

The development shallowly embeds the relevant source files:

* `src/main/credentials.ts` — the `CredentialsManager` class backed by a
  single `electron-store` slot holding the key `credentials`, together with
  the `safeStorage` platform-encryption facility.
* `src/main/s3Service.ts` — the `MainProcessS3Service` class
  (`listObjects`, `createFolder`, error wrapping of the remote calls).
* `src/main/index.ts` — the IPC handlers guarding every `s3:*` channel with
  the `S3 service not initialized` check.
* `src/renderer/src/components/FileBrowser.tsx` — `loadObjects` error
  classification and the `handleFileUpload` fan-out over `Promise.all`.

Strings are modelled with Lean `String`, timestamps with `Nat`, and the
single persisted storage slot with `Option StoredData`.
-/

namespace SimpleS3

/-- Mirrors the `AwsCredentials` interface of `credentials.ts`:
four string fields. -/
structure AwsCredentials where
  accessKeyId : String
  secretAccessKey : String
  region : String
  bucket : String
deriving DecidableEq

/-- Mirrors `StoredCredentialsData = AwsCredentials | EncryptedCredentials`.
The persisted JSON object is modelled field-by-field: an optional string
field `encrypted` (present exactly on the `EncryptedCredentials` variant),
the two sensitive fields as optional strings (present exactly on the plain
variant), and `region`/`bucket`, which both variants store in cleartext. -/
structure StoredData where
  encrypted : Option String
  accessKeyId : Option String
  secretAccessKey : Option String
  region : String
  bucket : String
deriving DecidableEq

/-- Model of Electron `safeStorage` together with the fixed JSON/base64
plumbing of `credentials.ts`.  `available` is
`safeStorage.isEncryptionAvailable()`.  `encryptPair` is the composite
`JSON.stringify({accessKeyId, secretAccessKey})`, `encryptString`,
`toString('base64')`; `decryptPair` is the composite `Buffer.from(_,
'base64')`, `decryptString`, `JSON.parse`, returning `none` when any of
those throws.  A decrypted payload that lacks one of the two fields is
represented by an empty string, which the loader treats identically to a
missing field (JavaScript truthiness check). -/
structure SafeStorage where
  available : Bool
  encryptPair : String × String → String
  decryptPair : String → Option (String × String)

/-- Mirrors the type guard `isEncryptedCredentials`: the record carries a
string field `encrypted`. -/
def isEncryptedCredentials (d : StoredData) : Bool :=
  d.encrypted.isSome

/-- Mirrors the type guard `isPlainCredentials`: the record carries string
fields `accessKeyId` and `secretAccessKey`. -/
def isPlainCredentials (d : StoredData) : Bool :=
  d.accessKeyId.isSome && d.secretAccessKey.isSome

/-- Mirrors `CredentialsManager.saveCredentials`: when `safeStorage`
encryption is available, only the two sensitive fields are serialized and
encrypted and stored as the `encrypted` field, next to cleartext
`region`/`bucket`; otherwise the full record is stored verbatim. -/
def saveCredentials (ss : SafeStorage) (credentials : AwsCredentials) : StoredData :=
  if ss.available then
    { encrypted := some (ss.encryptPair (credentials.accessKeyId, credentials.secretAccessKey))
      accessKeyId := none
      secretAccessKey := none
      region := credentials.region
      bucket := credentials.bucket }
  else
    { encrypted := none
      accessKeyId := some credentials.accessKeyId
      secretAccessKey := some credentials.secretAccessKey
      region := credentials.region
      bucket := credentials.bucket }

/-- The errors thrown inside the `try` block of
`CredentialsManager.loadCredentials`. -/
inductive LoadError where
  /-- `Encrypted credentials found but safeStorage is not available` -/
  | decryptionUnavailable
  /-- `decryptString` / `JSON.parse` threw -/
  | decryptFailed
  /-- `Invalid decrypted credentials format` -/
  | invalidDecryptedFormat
  /-- `Invalid credentials format in storage` -/
  | invalidStoredFormat
deriving DecidableEq

/-- The body of the `try` block of `CredentialsManager.loadCredentials`:
absent slot returns `null`; an `encrypted`-carrying record requires the
platform facility and a well-shaped decrypted payload; otherwise the plain
type guard is tried; any other shape throws. -/
def loadCredentialsCore (ss : SafeStorage) :
    Option StoredData → Except LoadError (Option AwsCredentials)
  | none => .ok none
  | some d =>
    match d.encrypted with
    | some blob =>
      if ss.available then
        match ss.decryptPair blob with
        | none => .error .decryptFailed
        | some (a, s) =>
          if a = "" ∨ s = "" then .error .invalidDecryptedFormat
          else .ok (some { accessKeyId := a, secretAccessKey := s,
                           region := d.region, bucket := d.bucket })
      else .error .decryptionUnavailable
    | none =>
      match d.accessKeyId, d.secretAccessKey with
      | some a, some s =>
        .ok (some { accessKeyId := a, secretAccessKey := s,
                    region := d.region, bucket := d.bucket })
      | _, _ => .error .invalidStoredFormat

/-- Mirrors `CredentialsManager.loadCredentials` as observed by its caller:
the surrounding `catch` converts every thrown error into `null`. -/
def loadCredentials (ss : SafeStorage) (st : Option StoredData) : Option AwsCredentials :=
  match loadCredentialsCore ss st with
  | .ok r => r
  | .error _ => none

/-- Mirrors `CredentialsManager.deleteCredentials`: `store.delete` clears
the single slot unconditionally. -/
def deleteCredentials (_st : Option StoredData) : Option StoredData :=
  none

/-- Mirrors `CredentialsManager.hasCredentials`:
`store.get('credentials') !== undefined`. -/
def hasCredentials (st : Option StoredData) : Bool :=
  st.isSome

/-- A stored record is one of the two variants and never both: the
encrypted variant has no sensitive cleartext fields, the plain variant has
no `encrypted` field. -/
def GoodStored (d : StoredData) : Prop :=
  (d.encrypted.isSome ∧ d.accessKeyId = none ∧ d.secretAccessKey = none) ∨
  (d.encrypted = none ∧ d.accessKeyId.isSome ∧ d.secretAccessKey.isSome)

/-- Mirrors the `S3Object` interface of `s3Service.ts`; the `Date` value
`lastModified` is modelled as a `Nat` timestamp. -/
structure S3Object where
  key : String
  size : Nat
  lastModified : Nat
  etag : String
  storageClass : Option String
deriving DecidableEq

/-- One element of the remote listing response's `Contents` array, as typed
by the AWS SDK: every field except `Key` is optional (`Key` is non-null
asserted by the source). -/
structure S3ObjectEntry where
  Key : String
  Size : Option Nat
  LastModified : Option Nat
  ETag : Option String
  StorageClass : Option String
deriving DecidableEq

/-- One element of the response's `CommonPrefixes` array; `pfx` models the
SDK's optional common-prefix string field. -/
structure CommonPrefixEntry where
  pfx : Option String
deriving DecidableEq

/-- The remote `ListObjectsV2` response shape consumed by
`MainProcessS3Service.listObjects`. -/
structure ListResponse where
  Contents : Option (List S3ObjectEntry)
  CommonPrefixes : Option (List CommonPrefixEntry)
  IsTruncated : Option Bool
  NextContinuationToken : Option String

/-- Mirrors the `S3ListResult` interface returned to the renderer. -/
structure S3ListResult where
  objects : List S3Object
  commonPrefixes : List String
  isTruncated : Bool
  continuationToken : Option String
deriving DecidableEq

/-- The per-entry normalization inside `listObjects`:
`size: obj.Size || 0`, `lastModified: obj.LastModified || new Date()`,
`etag: obj.ETag || ''`, `storageClass: obj.StorageClass`.  `now` is the
`new Date()` taken at call time. -/
def mapObject (now : Nat) (e : S3ObjectEntry) : S3Object :=
  { key := e.Key
    size := e.Size.getD 0
    lastModified := e.LastModified.getD now
    etag := e.ETag.getD ""
    storageClass := e.StorageClass }

/-- The common-prefix extraction `(cp) => cp.Prefix!` composed with
`.filter(Boolean)`: a missing or empty prefix string is dropped. -/
def pfxEntryString (cp : CommonPrefixEntry) : Option String :=
  match cp.pfx with
  | some s => if s = "" then none else some s
  | none => none

/-- Mirrors the response-processing part of
`MainProcessS3Service.listObjects` (the request construction and transport
are external). -/
def listObjects (now : Nat) (resp : ListResponse) : S3ListResult :=
  { objects := (resp.Contents.getD []).map (mapObject now)
    commonPrefixes := (resp.CommonPrefixes.getD []).filterMap pfxEntryString
    isTruncated := resp.IsTruncated.getD false
    continuationToken := resp.NextContinuationToken }

/-- The single `PutObjectCommand` issued by
`MainProcessS3Service.createFolder`. -/
structure PutRequest where
  Bucket : String
  Key : String
  Body : String
  ContentType : String
deriving DecidableEq

/-- Models `folderPath.endsWith('/')`: the last character of the string is
the delimiter. -/
def endsWithSlash (s : String) : Bool :=
  s.data.getLast? == some '/'

/-- Mirrors `MainProcessS3Service.createFolder`: normalize the path to end
with the delimiter and issue exactly one zero-length put with the
directory-indicating content type. -/
def createFolder (bucket folderPath : String) : PutRequest :=
  let folderKey := if endsWithSlash folderPath then folderPath else folderPath ++ "/"
  { Bucket := bucket
    Key := folderKey
    Body := ""
    ContentType := "application/x-directory" }

/-- The seven catalog operations exposed over IPC in `main/index.ts`. -/
inductive S3Op where
  | testConnection
  | listObjects
  | uploadFile
  | getDownloadUrl
  | deleteObject
  | copyObject
  | createFolder
deriving DecidableEq

/-- The message of the error thrown by every `s3:*` IPC handler when
`s3Service` is `null`. -/
def notInitializedMsg : String := "S3 service not initialized"

/-- Mirrors the guard shared by all `s3:*` IPC handlers: when no successful
`s3:init` has constructed a service handle, the handler throws
`notInitializedMsg` and never forwards the call; otherwise the call is
forwarded to `MainProcessS3Service` (represented by `.ok op`). -/
def dispatch (initialized : Bool) (op : S3Op) : Except String S3Op :=
  if initialized then .ok op else .error notInitializedMsg

/-- The fixed message lead each `MainProcessS3Service` method prepends to
the underlying transport error; `testConnection` produces no error message
(it collapses every failure to `false`). -/
def opErrorLead : S3Op → Option String
  | .testConnection => none
  | .listObjects => some "Failed to list objects: "
  | .uploadFile => some "Failed to upload file: "
  | .getDownloadUrl => some "Failed to generate download URL: "
  | .deleteObject => some "Failed to delete object: "
  | .copyObject => some "Failed to copy object: "
  | .createFolder => some "Failed to create folder: "

/-- Substring test on character lists: some suffix of the list starts with
the pattern. -/
def listContains (pat : List Char) : List Char → Bool
  | [] => pat.isEmpty
  | c :: rest => pat.isPrefixOf (c :: rest) || listContains pat rest

/-- Models JavaScript `s.includes(pat)`. -/
def strContains (s pat : String) : Bool :=
  listContains pat.data s.data

/-- The two reactions of `FileBrowser.loadObjects` to a failed listing
call. -/
inductive RendererReaction where
  | promptCredentials
  | showError (msg : String)
deriving DecidableEq

/-- Mirrors the `catch` branch of `FileBrowser.loadObjects`: an error whose
message contains `not initialized` triggers `onCredentialsRequired()`;
every other message is shown via `setError`. -/
def loadObjectsOnError (msg : String) : RendererReaction :=
  if strContains msg "not initialized" then .promptCredentials else .showError msg

/-- One file of a concurrent upload batch: its key, the time at which its
upload promise settles, and whether it fulfills. -/
structure UploadTask where
  key : String
  settleTime : Nat
  ok : Bool
deriving DecidableEq

/-- `Promise.all` fulfills iff every upload fulfills. -/
def promiseAllOk (xs : List UploadTask) : Bool :=
  xs.all fun t => t.ok

/-- The time at which `Promise.all(uploads)` settles: if every upload
fulfills, after the last one; otherwise at the first rejection
(`Promise.all` is fail-fast and does not wait for the remaining
promises). -/
def promiseAllSettleTime (xs : List UploadTask) : Nat :=
  let maxAll := (xs.map fun t => t.settleTime).foldr max 0
  if promiseAllOk xs then maxAll
  else ((xs.filter fun t => !t.ok).map fun t => t.settleTime).foldr min maxAll

/-- The `setError` message of the aggregate `catch` in
`FileBrowser.handleFileUpload`. -/
def uploadFailMsg : String := "ファイルのアップロードに失敗しました"

/-- The aggregate outcome of `handleFileUpload`: on fulfillment the listing
is reloaded and the dialog closed; on rejection `setError` is called. -/
inductive UploadAggregate where
  | success
  | failure (msg : String)
deriving DecidableEq

/-- Mirrors the aggregate `try { await Promise.all(uploads) ... } catch {
setError(...) }` of `FileBrowser.handleFileUpload`. -/
def handleFileUpload (xs : List UploadTask) : UploadAggregate :=
  if promiseAllOk xs then .success else .failure uploadFailMsg

/-- The remote key set after the batch: every upload that fulfilled has
performed its single-shot put, whether or not the aggregate failed. -/
def remoteKeysAfter (st : List String) (xs : List UploadTask) : List String :=
  st ++ (xs.filter fun t => t.ok).map fun t => t.key

/-- The files whose per-file progress reached 100 — `setUploadProgress`
marks a file complete only after its own `await` succeeded. -/
def progressClaimedSuccess (xs : List UploadTask) : List String :=
  (xs.filter fun t => t.ok).map fun t => t.key

/-- Concrete `safeStorage` instance for the C1 counterexample: encryption
available, and decryption of the one blob produced below returns exactly
the sensitive pair that was encrypted. -/
def ssEmptyKey : SafeStorage :=
  { available := true
    encryptPair := fun _ => "CT"
    decryptPair := fun _ => some ("", "x") }

/-- Concrete `safeStorage` instance for the C1 witness (encryption
available). -/
def ssWitnessOn : SafeStorage :=
  { available := true
    encryptPair := fun _ => "blob"
    decryptPair := fun _ => some ("AKIAEXAMPLEKEY000001", "wJalrExampleSecretExampleSecretExample40") }

/-- Concrete `safeStorage` instance for the C1 witness (encryption
unavailable). -/
def ssWitnessOff : SafeStorage :=
  { available := false
    encryptPair := fun _ => "blob"
    decryptPair := fun _ => some ("AKIAEXAMPLEKEY000001", "wJalrExampleSecretExampleSecretExample40") }

/-- Concrete valid credential record for the C1 witness. -/
def rWitness : AwsCredentials :=
  { accessKeyId := "AKIAEXAMPLEKEY000001"
    secretAccessKey := "wJalrExampleSecretExampleSecretExample40"
    region := "us-east-1"
    bucket := "my-bucket" }

/-- Concrete `safeStorage` instance with the platform facility unavailable,
for the C2 theorems. -/
def ssOff : SafeStorage :=
  { available := false
    encryptPair := fun _ => ""
    decryptPair := fun _ => none }

/-- Concrete stored record of the Encrypted variant, for the C2
theorems. -/
def dEncrypted : StoredData :=
  { encrypted := some "b64blob"
    accessKeyId := none
    secretAccessKey := none
    region := "us-east-1"
    bucket := "b" }

/-- Concrete `safeStorage` instances and record for the C4 witness. -/
def ssOn4 : SafeStorage :=
  { available := true
    encryptPair := fun p => p.1 ++ "/" ++ p.2
    decryptPair := fun _ => none }

/-- Companion instance with the facility unavailable, for the C4
witness. -/
def ssOff4 : SafeStorage :=
  { available := false
    encryptPair := fun p => p.1 ++ "/" ++ p.2
    decryptPair := fun _ => none }

/-- Concrete credential record for the C4 witness. -/
def r4 : AwsCredentials :=
  { accessKeyId := "AKIAEXAMPLEKEY000002"
    secretAccessKey := "wJalrExampleSecretExampleSecretExample41"
    region := "eu-west-1"
    bucket := "bucket-four" }

/-- Concrete listing response for the C3 witness: three objects under the
queried level `a/` and the two common prefixes `a/b/` and `a/c/`. -/
def resp3 : ListResponse :=
  { Contents := some
      [ { Key := "a/x.txt", Size := some 1, LastModified := some 10,
          ETag := some "e1", StorageClass := none }
      , { Key := "a/y.txt", Size := none, LastModified := none,
          ETag := none, StorageClass := some "STANDARD" }
      , { Key := "a/z.txt", Size := some 3, LastModified := some 30,
          ETag := some "e3", StorageClass := none } ]
    CommonPrefixes := some [ { pfx := some "a/b/" }, { pfx := some "a/c/" } ]
    IsTruncated := some false
    NextContinuationToken := none }

/-- Concrete listing response for the C10 witness: an object entry with
every optional field absent, and common-prefix entries that are empty or
missing. -/
def respDefaults : ListResponse :=
  { Contents := some
      [ { Key := "k.bin", Size := none, LastModified := none,
          ETag := none, StorageClass := none } ]
    CommonPrefixes := some [ { pfx := some "" }, { pfx := none }, { pfx := some "d/" } ]
    IsTruncated := none
    NextContinuationToken := none }

/-- Concrete upload batch for the C6 theorems: the upload of `a.txt`
settles successfully at time 5, that of `b.txt` rejects at time 1. -/
def xs6 : List UploadTask :=
  [ { key := "a.txt", settleTime := 5, ok := true }
  , { key := "b.txt", settleTime := 1, ok := false } ]

/-- C1 (amended): saving and then loading with the same `safeStorage`
availability answer round-trips the record in all four fields, whether or
not the platform facility is available, provided the two sensitive fields
are non-empty strings (the hypothesis `hrt` states that decryption inverts
encryption on the saved blob, which is the contract of the platform
facility). -/
theorem c1_roundtrip (ss : SafeStorage) (r : AwsCredentials)
    (hrt : ss.decryptPair (ss.encryptPair (r.accessKeyId, r.secretAccessKey)) =
      some (r.accessKeyId, r.secretAccessKey))
    (ha : r.accessKeyId ≠ "") (hs : r.secretAccessKey ≠ "") :
    loadCredentials ss (some (saveCredentials ss r)) = some r := by
  unfold loadCredentials loadCredentialsCore saveCredentials
  cases hav : ss.available with
  | true => simp [hav, hrt, ha, hs]
  | false => simp [hav]

/-- C1 witness: the round-trip theorem applied at a concrete valid record,
once with the platform facility available and once without. -/
theorem c1_roundtrip_witness :
    loadCredentials ssWitnessOn (some (saveCredentials ssWitnessOn rWitness)) = some rWitness ∧
    loadCredentials ssWitnessOff (some (saveCredentials ssWitnessOff rWitness)) = some rWitness :=
  ⟨c1_roundtrip ssWitnessOn rWitness rfl (by decide) (by decide),
   c1_roundtrip ssWitnessOff rWitness rfl (by decide) (by decide)⟩

/-- C1 counterexample: with the platform facility available and inverting
correctly on the saved blob, a record whose `accessKeyId` is the empty
string does not round-trip — the loader's truthiness check rejects the
decrypted payload and the surrounding `catch` turns this into `null`. -/
theorem c1_counterexample :
    ssEmptyKey.decryptPair (ssEmptyKey.encryptPair ("", "x")) = some ("", "x") ∧
    loadCredentials ssEmptyKey (some (saveCredentials ssEmptyKey
      { accessKeyId := "", secretAccessKey := "x",
        region := "us-east-1", bucket := "b" })) = none :=
  ⟨rfl, by decide⟩

/-- C2 (amended): inside the `try` block, `loadCredentials` classifies the
stored state exactly as described — absent slot is `null`, Encrypted
variant without the platform facility raises the decryption-unavailable
error, a decrypted payload lacking a sensitive field raises the
corrupt-data error, and a record matching neither variant raises the
corrupt-data error — but the surrounding `catch` converts every such error
into `null`, so the caller observes absent rather than a thrown error. -/
theorem c2_load_error_classification (ss : SafeStorage) (st : Option StoredData) :
    (st = none → loadCredentialsCore ss st = .ok none) ∧
    (∀ d blob, st = some d → d.encrypted = some blob → ss.available = false →
      loadCredentialsCore ss st = .error .decryptionUnavailable) ∧
    (∀ d blob a s, st = some d → d.encrypted = some blob → ss.available = true →
      ss.decryptPair blob = some (a, s) → (a = "" ∨ s = "") →
      loadCredentialsCore ss st = .error .invalidDecryptedFormat) ∧
    (∀ d, st = some d → d.encrypted = none →
      (d.accessKeyId = none ∨ d.secretAccessKey = none) →
      loadCredentialsCore ss st = .error .invalidStoredFormat) ∧
    (∀ e, loadCredentialsCore ss st = .error e → loadCredentials ss st = none) := by
  refine ⟨?_, ?_, ?_, ?_, ?_⟩
  · rintro rfl; rfl
  · rintro d blob rfl henc hav
    simp [loadCredentialsCore, henc, hav]
  · rintro d blob a s rfl henc hav hdec hbad
    simp [loadCredentialsCore, henc, hav, hdec, hbad]
  · rintro d rfl henc hbad
    rcases hbad with h | h
    · cases hsec : d.secretAccessKey <;> simp [loadCredentialsCore, henc, h, hsec]
    · cases hacc : d.accessKeyId <;> simp [loadCredentialsCore, henc, h, hacc]
  · intro e he
    unfold loadCredentials
    rw [he]

/-- C2 witness: the classification theorem applied to a concrete Encrypted
record with the platform facility unavailable. -/
theorem c2_classification_witness :
    loadCredentialsCore ssOff (some dEncrypted) = .error .decryptionUnavailable ∧
    loadCredentials ssOff (some dEncrypted) = none := by
  have h := c2_load_error_classification ssOff (some dEncrypted)
  have h1 := h.2.1 dEncrypted "b64blob" rfl rfl rfl
  exact ⟨h1, h.2.2.2.2 _ h1⟩

/-- C2 counterexample: a stored Encrypted record with the platform facility
unavailable makes `loadCredentials` return absent, even though a record is
stored — refuting both "returns absent exactly when no record is stored"
and "throws to its caller rather than returning absent". -/
theorem c2_counterexample :
    loadCredentials ssOff (some dEncrypted) = none ∧
    some dEncrypted ≠ (none : Option StoredData) :=
  ⟨by decide, by decide⟩

/-- C4: every record persisted by `saveCredentials` is one of exactly the
two variants; the Encrypted variant holds cleartext `region`/`bucket` and
the ciphertext of the two sensitive fields only; the Plain variant holds
all four fields; the variant written is classified by the type guards as
itself and never as the other; `deleteCredentials` trivially preserves the
slot invariant by clearing the slot. -/
theorem c4_variant_invariant (ss : SafeStorage) (r : AwsCredentials) (st : Option StoredData) :
    GoodStored (saveCredentials ss r) ∧
    isEncryptedCredentials (saveCredentials ss r) = ss.available ∧
    isPlainCredentials (saveCredentials ss r) = !ss.available ∧
    (ss.available = true → saveCredentials ss r =
      { encrypted := some (ss.encryptPair (r.accessKeyId, r.secretAccessKey)),
        accessKeyId := none, secretAccessKey := none,
        region := r.region, bucket := r.bucket }) ∧
    (ss.available = false → saveCredentials ss r =
      { encrypted := none,
        accessKeyId := some r.accessKeyId, secretAccessKey := some r.secretAccessKey,
        region := r.region, bucket := r.bucket }) ∧
    deleteCredentials st = none := by
  cases hav : ss.available <;>
    simp [saveCredentials, isEncryptedCredentials, isPlainCredentials, GoodStored,
      deleteCredentials, hav]

/-- C4 witness: the invariant theorem applied at a concrete record, in both
availability cases. -/
theorem c4_variant_witness :
    saveCredentials ssOn4 r4 =
      { encrypted := some (ssOn4.encryptPair (r4.accessKeyId, r4.secretAccessKey)),
        accessKeyId := none, secretAccessKey := none,
        region := r4.region, bucket := r4.bucket } ∧
    saveCredentials ssOff4 r4 =
      { encrypted := none,
        accessKeyId := some r4.accessKeyId, secretAccessKey := some r4.secretAccessKey,
        region := r4.region, bucket := r4.bucket } :=
  ⟨(c4_variant_invariant ssOn4 r4 none).2.2.2.1 rfl,
   (c4_variant_invariant ssOff4 r4 none).2.2.2.2.1 rfl⟩

/-- C8: `deleteCredentials` clears the slot unconditionally, so a load
after a delete returns absent from every starting state, a delete from the
empty state succeeds, and a second delete is a no-op equal to the
first. -/
theorem c8_delete_idempotent (ss : SafeStorage) (st : Option StoredData) :
    loadCredentials ss (deleteCredentials st) = none ∧
    hasCredentials (deleteCredentials st) = false ∧
    deleteCredentials (deleteCredentials st) = deleteCredentials st :=
  ⟨rfl, rfl, rfl⟩

/-- C9: `hasCredentials` is exactly presence of the stored slot — false on
the empty slot, true immediately after any save of either variant — and
depends only on presence (`st.isSome`), performing no validation or
decryption. -/
theorem c9_hasCredentials (ss : SafeStorage) (r : AwsCredentials) (st : Option StoredData) :
    hasCredentials none = false ∧
    hasCredentials (some (saveCredentials ss r)) = true ∧
    hasCredentials st = st.isSome :=
  ⟨rfl, rfl, rfl⟩

/-- When every common-prefix entry of a response carries a present,
non-empty string (as the remote delimiter-listing contract guarantees),
the `filter(Boolean)` step is the identity and the folder list is exactly
the map of those strings. -/
theorem pfx_filterMap_eq (l : List CommonPrefixEntry)
    (h : ∀ cp ∈ l, ∃ s, cp.pfx = some s ∧ s ≠ "") :
    l.filterMap pfxEntryString = l.map fun cp => cp.pfx.getD "" := by
  induction l with
  | nil => rfl
  | cons c t ih =>
    obtain ⟨s, hs, hne⟩ := h c (List.mem_cons_self c t)
    rw [List.filterMap_cons, List.map_cons,
      ih fun cp hcp => h cp (List.mem_cons_of_mem _ hcp)]
    simp [pfxEntryString, hs, hne]

/-- Characterization of the common-prefix extraction: an entry contributes
the string `f` exactly when its prefix field is `f` and `f` is
non-empty. -/
theorem pfxEntryString_eq_some (cp : CommonPrefixEntry) (f : String) :
    pfxEntryString cp = some f ↔ cp.pfx = some f ∧ f ≠ "" := by
  cases hp : cp.pfx with
  | none => simp [pfxEntryString, hp]
  | some s =>
    by_cases hs : s = "" <;> simp only [pfxEntryString, hp, hs] <;> simp <;> aesop

/-- C3: for every listing response, `listObjects` returns one object per
`Contents` element, in response order without re-sorting; under the remote
delimiter-listing contract (every common prefix present and non-empty, no
`Contents` key listed among the common prefixes) the folders are exactly
the response's common-prefix strings and no string is both an object key
and a folder. -/
theorem c3_listObjects_exact (now : Nat) (resp : ListResponse) :
    (listObjects now resp).objects = (resp.Contents.getD []).map (mapObject now) ∧
    ((listObjects now resp).objects.map fun o => o.key) =
      ((resp.Contents.getD []).map fun e => e.Key) ∧
    ((∀ cp ∈ resp.CommonPrefixes.getD [], ∃ s, cp.pfx = some s ∧ s ≠ "") →
      (listObjects now resp).commonPrefixes =
        (resp.CommonPrefixes.getD []).map fun cp => cp.pfx.getD "") ∧
    ((∀ e ∈ resp.Contents.getD [], ∀ cp ∈ resp.CommonPrefixes.getD [],
        cp.pfx ≠ some e.Key) →
      ∀ f ∈ (listObjects now resp).commonPrefixes,
        f ∉ (listObjects now resp).objects.map fun o => o.key) := by
  refine ⟨rfl, ?_, ?_, ?_⟩
  · simp [listObjects, mapObject]
  · intro h
    exact pfx_filterMap_eq _ h
  · intro hdisj f hf hmem
    obtain ⟨cp, hcp, hcpf⟩ := List.mem_filterMap.mp hf
    obtain ⟨hpfx, -⟩ := (pfxEntryString_eq_some cp f).mp hcpf
    simp only [listObjects, List.map_map, List.mem_map, Function.comp] at hmem
    obtain ⟨e, he, hek⟩ := hmem
    exact hdisj e he cp hcp (by rw [hpfx, hek.symm]; rfl)

/-- C3 witness: the exactness theorem applied to the concrete response with
three objects under `a/` and common prefixes `a/b/` and `a/c/`. -/
theorem c3_listObjects_witness :
    (listObjects 0 resp3).commonPrefixes = ["a/b/", "a/c/"] ∧
    ((listObjects 0 resp3).objects.map fun o => o.key) = ["a/x.txt", "a/y.txt", "a/z.txt"] ∧
    "a/b/" ∉ ((listObjects 0 resp3).objects.map fun o => o.key) ∧
    "a/c/" ∉ ((listObjects 0 resp3).objects.map fun o => o.key) := by
  refine ⟨?_, by decide, ?_, ?_⟩
  · rw [(c3_listObjects_exact 0 resp3).2.2.1 (by decide)]; decide
  · exact (c3_listObjects_exact 0 resp3).2.2.2 (by decide) "a/b/" (by decide)
  · exact (c3_listObjects_exact 0 resp3).2.2.2 (by decide) "a/c/" (by decide)

/-- C10: the returned objects are total records with the response-omitted
fields defaulted — size to 0, timestamp to the time of the call, etag to
the empty string, storage class kept optional — and the folder list keeps
exactly the present, non-empty common-prefix strings, so every returned
folder string is non-empty. -/
theorem c10_listObjects_defaults (now : Nat) (resp : ListResponse) :
    (∀ e, mapObject now e =
      { key := e.Key, size := e.Size.getD 0, lastModified := e.LastModified.getD now,
        etag := e.ETag.getD "", storageClass := e.StorageClass }) ∧
    (listObjects now resp).objects = (resp.Contents.getD []).map (mapObject now) ∧
    (∀ f ∈ (listObjects now resp).commonPrefixes, f ≠ "") ∧
    (∀ f, f ∈ (listObjects now resp).commonPrefixes ↔
      ∃ cp ∈ resp.CommonPrefixes.getD [], cp.pfx = some f ∧ f ≠ "") := by
  refine ⟨fun e => rfl, rfl, ?_, ?_⟩
  · intro f hf
    obtain ⟨cp, -, hcpf⟩ := List.mem_filterMap.mp hf
    exact ((pfxEntryString_eq_some cp f).mp hcpf).2
  · intro f
    simp only [listObjects, List.mem_filterMap, pfxEntryString_eq_some]

/-- C10 witness: the defaults theorem applied to a concrete response whose
object entry omits every optional field and whose common-prefix entries are
partly empty or missing. -/
theorem c10_defaults_witness :
    mapObject 42 ({ Key := "k.bin", Size := none, LastModified := none,
                    ETag := none, StorageClass := none }) =
      { key := "k.bin", size := 0, lastModified := 42, etag := "", storageClass := none } ∧
    (listObjects 42 respDefaults).commonPrefixes = ["d/"] ∧
    "d/" ≠ "" :=
  ⟨(c10_listObjects_defaults 42 respDefaults).1 _,
   by decide,
   (c10_listObjects_defaults 42 respDefaults).2.2.1 "d/" (by decide)⟩

/-- C7: `createFolder` issues exactly one put request whose key is the path
itself when it already ends with the delimiter and the path extended by the
delimiter otherwise, with an empty body and the directory-indicating
content type; the two concrete conjuncts evaluate both normalization
cases. -/
theorem c7_createFolder_normalizes (bucket folderPath : String) :
    createFolder bucket folderPath =
      { Bucket := bucket,
        Key := if endsWithSlash folderPath then folderPath else folderPath ++ "/",
        Body := "", ContentType := "application/x-directory" } ∧
    createFolder "b" "x/y" =
      { Bucket := "b", Key := "x/y/", Body := "", ContentType := "application/x-directory" } ∧
    createFolder "b" "x/y/" =
      { Bucket := "b", Key := "x/y/", Body := "", ContentType := "application/x-directory" } :=
  ⟨rfl, by decide, by decide⟩

/-- Every occurrence of a pattern in a concatenation either starts inside
the first part (the pattern then begins a non-empty suffix of it, possibly
running over into the second part) or lies entirely in the second part. -/
theorem listContains_append_split (pat a b : List Char)
    (h : listContains pat (a ++ b) = true) :
    (∃ s, s ∈ a.tails ∧ s ≠ [] ∧ pat.isPrefixOf (s ++ b) = true) ∨
      listContains pat b = true := by
  induction a with
  | nil => exact Or.inr (by simpa using h)
  | cons c t ih =>
    rw [List.cons_append] at h
    rcases Bool.or_eq_true_iff.mp h with hpre | hrest
    · refine Or.inl ⟨c :: t, ?_, by simp, by rwa [List.cons_append]⟩
      rw [List.mem_tails]
    · rcases ih hrest with ⟨s, hs, hne, hp⟩ | hb
      · refine Or.inl ⟨s, ?_, hne, hp⟩
        rw [List.mem_tails] at hs ⊢
        exact hs.trans (List.suffix_cons c t)
      · exact Or.inr hb

/-- A pattern that starts at the beginning of `s ++ b` is either at least
as long as `s` (then `s` is a prefix of the pattern) or shorter (then the
pattern is a prefix of `s`). -/
theorem isPrefixOf_append_cases (pat s b : List Char)
    (h : pat.isPrefixOf (s ++ b) = true) :
    pat.isPrefixOf s = true ∨ s.isPrefixOf pat = true := by
  rw [ List.isPrefixOf_iff_prefix] at h
  rcases List.prefix_or_prefix_of_prefix h ( List.prefix_append s b) with h1 | h2
  · exact Or.inl (by rwa [ List.isPrefixOf_iff_prefix])
  · exact Or.inr (by rwa [ List.isPrefixOf_iff_prefix])

/-- If no non-empty suffix of the lead is prefix-related to the pattern and
the pattern does not occur in the tail, it does not occur in the
concatenation. -/
theorem listContains_append_false (pat a b : List Char)
    (ha : ∀ s ∈ a.tails, s ≠ [] →
      pat.isPrefixOf s = false ∧ s.isPrefixOf pat = false)
    (hb : listContains pat b = false) :
    listContains pat (a ++ b) = false := by
  cases hval : listContains pat (a ++ b) with
  | false => rfl
  | true =>
    exfalso
    rcases listContains_append_split pat a b hval with ⟨s, hs, hne, hpre⟩ | hcb
    · rcases isPrefixOf_append_cases pat s b hpre with h1 | h2
      · exact absurd h1 (by simp [(ha s hs hne).1])
      · exact absurd h2 (by simp [(ha s hs hne).2])
    · exact absurd hcb (by simp [hb])

/-- String-level corollary: a wrapped error message `lead ++ underlying`
contains `not initialized` only if the underlying message does, provided no
non-empty suffix of the fixed lead is prefix-related to the marker. -/
theorem strContains_wrap_false (lead u : String)
    (hlead : ∀ s ∈ lead.data.tails, s ≠ [] →
      "not initialized".data.isPrefixOf s = false ∧
        s.isPrefixOf "not initialized".data = false)
    (hu : strContains u "not initialized" = false) :
    strContains (lead ++ u) "not initialized" = false := by
  unfold strContains at hu ⊢
  rw [String.data_append]
  exact listContains_append_false _ _ _ hlead hu

/-- C5: with no service handle constructed, every one of the seven `s3:*`
IPC handlers fails with the `S3 service not initialized` error and forwards
nothing to the remote service; the renderer's `loadObjects` reacts to
exactly that message by prompting for credential re-entry, while every
error message this layer wraps around an underlying transport error (whose
own text does not contain the marker) is shown as an ordinary error instead
(`testConnection` contributes no such message: it collapses every failure
to `false`). -/
theorem c5_uninitialized_distinguishable (op : S3Op) :
    dispatch false op = .error notInitializedMsg ∧
    loadObjectsOnError notInitializedMsg = .promptCredentials ∧
    (∀ lead u, opErrorLead op = some lead → strContains u "not initialized" = false →
      loadObjectsOnError (lead ++ u) = .showError (lead ++ u)) := by
  refine ⟨rfl, by decide, ?_⟩
  intro lead u hlead hu
  have hfalse : strContains (lead ++ u) "not initialized" = false := by
    cases op <;> simp only [opErrorLead, Option.some.injEq] at hlead
    case testConnection => exact absurd hlead (by simp)
    all_goals subst hlead
    all_goals exact strContains_wrap_false _ u (by decide) hu
  simp [loadObjectsOnError, hfalse]

/-- C5 witness: the theorem applied to the `testConnection` and
`listObjects` channels, the latter with a concrete underlying transport
error. -/
theorem c5_uninitialized_witness :
    dispatch false S3Op.testConnection = .error notInitializedMsg ∧
    dispatch false S3Op.listObjects = .error notInitializedMsg ∧
    loadObjectsOnError notInitializedMsg = .promptCredentials ∧
    loadObjectsOnError ("Failed to list objects: " ++ "connection timed out") =
      .showError ("Failed to list objects: " ++ "connection timed out") :=
  ⟨(c5_uninitialized_distinguishable S3Op.testConnection).1,
   (c5_uninitialized_distinguishable S3Op.listObjects).1,
   (c5_uninitialized_distinguishable S3Op.listObjects).2.1,
   (c5_uninitialized_distinguishable S3Op.listObjects).2.2 "Failed to list objects: "
     "connection timed out" rfl (by decide)⟩

/-- C6 (amended): when at least one upload of a concurrent batch fails, the
aggregate `handleFileUpload` reports failure, a failed file is never
reported complete by the per-file progress, and every upload that fulfilled
has performed its put, so its key is present in a subsequent listing of the
remote state — but the aggregate outcome is decided at the first rejection
(`Promise.all` fail-fast), not after every upload has been awaited. -/
theorem c6_aggregate_failure (st : List String) (xs : List UploadTask)
    (hfail : ∃ t ∈ xs, t.ok = false)
    (hnd : (xs.map fun t => t.key).Nodup) :
    handleFileUpload xs = .failure uploadFailMsg ∧
    (∀ t ∈ xs, t.ok = false → t.key ∉ progressClaimedSuccess xs) ∧
    (∀ t ∈ xs, t.ok = true → t.key ∈ remoteKeysAfter st xs) := by
  obtain ⟨t0, ht0, hok0⟩ := hfail
  have hall : promiseAllOk xs = false := by
    cases h : xs.all (fun u => u.ok) with
    | false => exact h
    | true => exact absurd (List.all_eq_true.mp h t0 ht0) (by simp [hok0])
  refine ⟨by simp [handleFileUpload, hall], ?_, ?_⟩
  · intro t ht htok hmem
    obtain ⟨u, humem, huk⟩ := List.mem_map.mp hmem
    obtain ⟨huxs, huok⟩ := List.mem_filter.mp humem
    have := List.inj_on_of_nodup_map hnd huxs ht huk
    subst this
    exact absurd huok (by simp [htok])
  · intro t ht htok
    exact List.mem_append_right _
      (List.mem_map.mpr ⟨t, List.mem_filter.mpr ⟨ht, htok⟩, rfl⟩)

/-- C6 witness: the amended theorem applied to the concrete two-file batch
in which `b.txt` fails. -/
theorem c6_aggregate_witness :
    handleFileUpload xs6 = .failure uploadFailMsg ∧
    "a.txt" ∈ remoteKeysAfter [] xs6 := by
  have h := c6_aggregate_failure [] xs6
    ⟨{ key := "b.txt", settleTime := 1, ok := false }, by decide, rfl⟩ (by decide)
  exact ⟨h.1, h.2.2 { key := "a.txt", settleTime := 5, ok := true } (by decide) rfl⟩

/-- C6 counterexample: in the concrete batch the successful upload of
`a.txt` settles at time 5, yet `Promise.all` decides the aggregate outcome
at time 1 (the rejection of `b.txt`) — so not every individual upload is
awaited before the aggregate outcome is decided, even though the aggregate
correctly reports failure. -/
theorem c6_counterexample :
    ({ key := "a.txt", settleTime := 5, ok := true } : UploadTask) ∈ xs6 ∧
    promiseAllSettleTime xs6 < 5 ∧
    handleFileUpload xs6 = .failure uploadFailMsg := by decide

end SimpleS3
